import Mathlib

/-!
Verification of the to-do list backend (src/backend/main.py): a shallow
embedding of the persisted-entity API surface (data model, the five CRUD
handlers and the translation pass-through) together with theorems about the
contract the spec states for them.

Modelling conventions:
* The relational store is the list of rows of the single `todoitem` table, in
  rowid order; inserting appends.
* SQLite assigns an unspecified INTEGER PRIMARY KEY as one more than the
  largest rowid currently in the table (1 on an empty table); `nextId` models
  this.  SQLite enforces NOT NULL constraints but does not enforce the
  declared VARCHAR length of a column.
* A pydantic payload field is modelled as `Option (Option v)` where the outer
  layer records whether the field was supplied at all (pydantic "unset", the
  thing `model_dump(exclude_unset=True)` drops) and the inner layer is the
  supplied value, JSON null included.
* `TodoItem.model_validate` applies the pydantic constraints attached to the
  table model's fields, in particular max_length=50 on `priority`;
  `sqlmodel_update` performs no validation.
* The external generative model is an oracle `String → Except String String`;
  the handler result carries the number of calls made to it.
-/

namespace TodoApp

/-- Calendar date as carried by the `due_date` field (Python `datetime.date`). -/
structure CalDate where
  year : Nat
  month : Nat
  day : Nat
deriving DecidableEq, Repr

/-- A persisted row of the `todoitem` table (`TodoItem` in main.py, lines
41-47), after the store has assigned its integer primary key. -/
structure TodoItem where
  id : Nat
  title : String
  description : Option String
  completed : Bool
  priority : Option String
  due_date : Option CalDate
deriving DecidableEq, Repr

/-- The relational store: the rows of the single table, in rowid order. -/
abbrev Store := List TodoItem

/-- Outcome of a handler: success with an HTTP status code and a body, or an
HTTPException-style error with a status code and a detail string. -/
inductive Response (α : Type) where
  | ok (status : Nat) (body : α)
  | err (status : Nat) (detail : String)
deriving DecidableEq, Repr

/-- Body of POST /todos as received, before schema validation: `title` may be
missing (absent from the JSON object, or JSON null, both of which pydantic
rejects for a required `str` field). -/
structure RawCreatePayload where
  title : Option String
  description : Option String
  priority : Option String
  due_date : Option CalDate
deriving DecidableEq, Repr

/-- `TodoItemCreate` (main.py lines 49-53): the creation payload after the
schema-validation boundary. -/
structure TodoItemCreate where
  title : String
  description : Option String
  priority : Option String
  due_date : Option CalDate
deriving DecidableEq, Repr

/-- The FastAPI schema-validation boundary of POST /todos: pydantic rejects a
payload whose required `title` is missing or null with a 422 validation error
before the handler runs; the optional fields default to None. -/
def validateCreate (p : RawCreatePayload) : Option TodoItemCreate :=
  match p.title with
  | none => none
  | some t => some ⟨t, p.description, p.priority, p.due_date⟩

/-- `TodoItemUpdate` (main.py lines 55-60).  For each field, `none` means the
field was absent from the payload (pydantic "unset"), `some none` means it was
explicitly set to JSON null, and `some (some v)` means it was set to `v`. -/
structure TodoItemUpdate where
  title : Option (Option String)
  description : Option (Option String)
  completed : Option (Option Bool)
  priority : Option (Option String)
  due_date : Option (Option CalDate)
deriving DecidableEq, Repr

/-- The update payload of a PUT with body \x7b\x7d: every field unset. -/
def emptyUpdate : TodoItemUpdate := ⟨none, none, none, none, none⟩

/-- Largest primary key currently in use in the table (0 when empty). -/
def maxId (s : Store) : Nat := (s.map (fun t => t.id)).foldr max 0

/-- The primary key SQLite assigns to an inserted row whose INTEGER PRIMARY
KEY is unspecified: one more than the largest rowid currently in the table. -/
def nextId (s : Store) : Nat := maxId s + 1

/-- The pydantic max_length=50 constraint on `priority`
(`Field(default=None, max_length=50)`, main.py line 46), as checked by
`TodoItem.model_validate`. -/
def priorityOk (p : Option String) : Bool :=
  match p with
  | none => true
  | some v => v.length ≤ 50

/-- Handler `create_todo` (main.py lines 84-97): `TodoItem.model_validate`
applies the table model's field constraints (an over-long `priority` raises a
ValidationError, which escapes the handler — the try block has not been
entered — and surfaces as a 500 with nothing persisted); otherwise the row is
inserted, the store assigns its id, and the row is returned with 201. -/
def create_todo (s : Store) (c : TodoItemCreate) : Store × Response TodoItem :=
  if priorityOk c.priority then
    let t : TodoItem := ⟨nextId s, c.title, c.description, false, c.priority, c.due_date⟩
    (s ++ [t], Response.ok 201 t)
  else
    (s, Response.err 500 "Internal Server Error")

/-- The POST /todos endpoint: schema validation, then the handler. -/
def postTodos (s : Store) (p : RawCreatePayload) : Store × Response TodoItem :=
  match validateCreate p with
  | none => (s, Response.err 422 "validation error")
  | some c => create_todo s c

/-- `session.get(TodoItem, todo_id)`: primary-key lookup in the table. -/
def dbGet (s : Store) (i : Nat) : Option TodoItem :=
  s.find? (fun t => t.id == i)

/-- Handler `get_todo` (main.py lines 100-108). -/
def get_todo (s : Store) (i : Nat) : Response TodoItem :=
  match dbGet s i with
  | none => Response.err 404 "To-Do item not found"
  | some t => Response.ok 200 t

/-- `todo.sqlmodel_update(todo_update.model_dump(exclude_unset=True))`
followed by the commit: each field present in the payload is set to its
payload value (JSON null included) with no validation, each absent field is
left alone; the commit then fails with an IntegrityError exactly when a
NOT NULL column (`title`, `completed`) was set to null, and that exception is
caught and mapped to a 500 with nothing persisted.  `none` here means the
commit fails; `some` is the row as persisted. -/
def applyUpdate (t : TodoItem) (u : TodoItemUpdate) : Option TodoItem :=
  let title? : Option String :=
    match u.title with
    | none => some t.title
    | some v => v
  let completed? : Option Bool :=
    match u.completed with
    | none => some t.completed
    | some v => v
  let description :=
    match u.description with
    | none => t.description
    | some v => v
  let priority :=
    match u.priority with
    | none => t.priority
    | some v => v
  let due_date :=
    match u.due_date with
    | none => t.due_date
    | some v => v
  match title?, completed? with
  | some ti, some co => some ⟨t.id, ti, description, co, priority, due_date⟩
  | _, _ => none

/-- Handler `update_todo` (main.py lines 110-130): 404 when the id is absent;
otherwise the supplied fields are applied to the row and committed, and the
updated row is returned with 200; a failing commit is caught and reported as a
500 with the store unchanged. -/
def update_todo (s : Store) (i : Nat) (u : TodoItemUpdate) :
    Store × Response TodoItem :=
  match dbGet s i with
  | none => (s, Response.err 404 "To-Do item not found")
  | some t =>
    match applyUpdate t u with
    | some t2 => (s.map (fun x => if x.id == i then t2 else x), Response.ok 200 t2)
    | none => (s, Response.err 500 "Failed to update todo")

/-- Handler `delete_todo` (main.py lines 132-147): 404 when the id is absent;
otherwise the row is deleted and 204 with no content is returned. -/
def delete_todo (s : Store) (i : Nat) : Store × Response Unit :=
  match dbGet s i with
  | none => (s, Response.err 404 "To-Do item not found")
  | some _ => (s.filter (fun x => x.id != i), Response.ok 204 ())

/-- Body of POST /translate (`TranslationRequest`, main.py lines 62-64). -/
structure TranslationRequest where
  text : String
  target_language : String
deriving DecidableEq, Repr

/-- Body of a successful POST /translate response (`TranslationResponse`). -/
structure TranslationResponse where
  translated_text : String
deriving DecidableEq, Repr

/-- The prompt `translate_text` builds (main.py line 154). -/
def buildPrompt (r : TranslationRequest) : String :=
  "Translate the following text into " ++ r.target_language ++ ": " ++ r.text

/-- Handler `translate_text` (main.py lines 149-160).  `gemini_model` is
`none` when the GOOGLE_API_KEY credential was not configured at startup
(main.py lines 15-23); when configured it is an oracle standing for
`generate_content`.  The second component of the result counts the calls made
to the external service. -/
def translate_text (gemini_model : Option (String → Except String String))
    (r : TranslationRequest) : Response TranslationResponse × Nat :=
  match gemini_model with
  | none =>
    (Response.err 503 "Translation service not available. API key might be missing or invalid.", 0)
  | some generate =>
    match generate (buildPrompt r) with
    | Except.ok t => (Response.ok 200 ⟨t⟩, 1)
    | Except.error e => (Response.err 500 ("Failed to translate text: " ++ e), 1)

/-- The primary-key invariant of the table: all row ids are distinct. -/
def IdsOk (s : Store) : Prop := (s.map (fun t => t.id)).Nodup

instance (s : Store) : Decidable (IdsOk s) := by
  unfold IdsOk
  infer_instance

/-- Every persisted `priority` satisfies the declared 50-character bound. -/
def PriorityBounded (s : Store) : Prop := ∀ t ∈ s, priorityOk t.priority = true

instance (s : Store) : Decidable (PriorityBounded s) := by
  unfold PriorityBounded
  infer_instance

/-- A 51-character string, one character past the declared `priority` bound. -/
def longPriority : String := String.mk (List.replicate 51 'a')

/-- Fixture: a stored row with id 1 and every optional field populated. -/
def w_t0 : TodoItem := ⟨1, "a", some "d", false, some "p", none⟩

/-- Fixture: `w_t0` with only `completed` flipped to true. -/
def w_t1 : TodoItem := ⟨1, "a", some "d", true, some "p", none⟩

/-- Fixture: the update payload \x7b"completed": true\x7d. -/
def w_u : TodoItemUpdate := ⟨none, none, some (some true), none, none⟩

/-- Fixture: the row created by POST \x7b"title": "c"\x7d on an empty store. -/
def w_t3 : TodoItem := ⟨1, "c", none, false, none, none⟩

/-- Fixture: the row created by POST \x7b"title": "b"\x7d on the store [w_t0]. -/
def w_t9 : TodoItem := ⟨2, "b", none, false, none, none⟩

/-! ## Helper lemmas -/

/-- Every row id is bounded by the largest id in use. -/
theorem le_maxId_of_mem {s : Store} {t : TodoItem} (h : t ∈ s) : t.id ≤ maxId s := by
  induction s with
  | nil => cases h
  | cons a l ih =>
    have hm : maxId (a :: l) = max a.id (maxId l) := rfl
    rw [hm]
    rcases List.mem_cons.mp h with h1 | h2
    · rw [h1]
      exact Nat.le_max_left _ _
    · exact Nat.le_trans (ih h2) (Nat.le_max_right _ _)

/-- Looking up a freshly appended row by its id finds it. -/
theorem dbGet_append_new (s : Store) (t : TodoItem) (h : ∀ x ∈ s, x.id ≠ t.id) :
    dbGet (s ++ [t]) t.id = some t := by
  unfold dbGet
  rw [List.find?_append]
  have hn : s.find? (fun x => x.id == t.id) = none := by
    rw [List.find?_eq_none]
    intro x hx
    simpa using h x hx
  rw [hn]
  simp

/-- Inverting a successful POST /todos: the payload passed validation, the
priority bound held, and the returned row was appended with id `nextId s`. -/
theorem postTodos_ok {s s2 : Store} {p : RawCreatePayload} {t : TodoItem}
    (h : postTodos s p = (s2, Response.ok 201 t)) :
    ∃ c, validateCreate p = some c ∧ priorityOk c.priority = true ∧
      t = ⟨nextId s, c.title, c.description, false, c.priority, c.due_date⟩ ∧
      s2 = s ++ [t] := by
  unfold postTodos at h
  split at h
  · simp at h
  · rename_i c hv
    unfold create_todo at h
    split at h
    · rename_i hp
      simp only [Prod.mk.injEq, Response.ok.injEq, true_and] at h
      obtain ⟨h1, h2⟩ := h
      exact ⟨c, hv, hp, h2.symm, by rw [← h1, h2]⟩
    · rename_i hp
      simp at h

/-- A successfully persisted partial update keeps the row's primary key. -/
theorem applyUpdate_id {t t2 : TodoItem} {u : TodoItemUpdate}
    (h : applyUpdate t u = some t2) : t2.id = t.id := by
  obtain ⟨ut, ud, uc, up, udd⟩ := u
  rcases ut with _ | (_ | tv) <;> rcases uc with _ | (_ | cv) <;>
    simp [applyUpdate] at h <;> subst h <;> rfl

/-- Field-by-field characterisation of a successfully persisted update: a
field absent from the payload keeps its prior value, and a supplied field
(an explicit null included) takes exactly the supplied value. -/
theorem applyUpdate_fields {t t2 : TodoItem} {u : TodoItemUpdate}
    (h : applyUpdate t u = some t2) :
    (u.title = none → t2.title = t.title) ∧
    (∀ v, u.title = some (some v) → t2.title = v) ∧
    (u.description = none → t2.description = t.description) ∧
    (∀ v, u.description = some v → t2.description = v) ∧
    (u.completed = none → t2.completed = t.completed) ∧
    (∀ b, u.completed = some (some b) → t2.completed = b) ∧
    (u.priority = none → t2.priority = t.priority) ∧
    (∀ v, u.priority = some v → t2.priority = v) ∧
    (u.due_date = none → t2.due_date = t.due_date) ∧
    (∀ v, u.due_date = some v → t2.due_date = v) := by
  obtain ⟨ut, ud, uc, up, udd⟩ := u
  rcases ut with _ | (_ | tv) <;> rcases uc with _ | (_ | cv) <;>
    rcases ud with _ | dv <;> rcases up with _ | pv <;> rcases udd with _ | ddv <;>
    simp [applyUpdate] at h <;> subst h <;> simp

/-- Inverting a successful PUT /todos/\x7bid\x7d on a row `t` found at `id`:
the returned row is `applyUpdate t u` and the store replaces that row. -/
theorem update_ok {s s2 : Store} {i : Nat} {u : TodoItemUpdate} {t t2 : TodoItem}
    (hget : dbGet s i = some t)
    (hupd : update_todo s i u = (s2, Response.ok 200 t2)) :
    applyUpdate t u = some t2 ∧
    s2 = s.map (fun x => if x.id == i then t2 else x) := by
  unfold update_todo at hupd
  split at hupd
  · rename_i heq
    rw [hget] at heq
    simp at heq
  · rename_i t0 heq
    rw [hget] at heq
    injection heq with heq2
    subst heq2
    split at hupd
    · rename_i t3 ha
      simp only [Prod.mk.injEq, Response.ok.injEq, true_and] at hupd
      obtain ⟨h1, h2⟩ := hupd
      rw [h2] at ha
      exact ⟨ha, by rw [← h1, h2]⟩
    · rename_i ha
      simp at hupd

/-- A PUT with every field unset persists the row unchanged. -/
theorem applyUpdate_empty (t : TodoItem) : applyUpdate t emptyUpdate = some t := rfl

/-! ## Claims -/

/-- C1: for every stored entity and every update payload, PUT /todos/\x7bid\x7d
overwrites only the fields explicitly supplied in the payload; every field the
caller did not mention retains its prior value, and an omitted field (`none`)
is treated differently from a field explicitly set to null (`some none`): the
former keeps the prior value, the latter stores exactly the supplied null. -/
theorem C1_partial_update_frame (s s2 : Store) (i : Nat) (u : TodoItemUpdate)
    (t t2 : TodoItem) (hget : dbGet s i = some t)
    (hupd : update_todo s i u = (s2, Response.ok 200 t2)) :
    (u.title = none → t2.title = t.title) ∧
    (∀ v, u.title = some (some v) → t2.title = v) ∧
    (u.description = none → t2.description = t.description) ∧
    (∀ v, u.description = some v → t2.description = v) ∧
    (u.completed = none → t2.completed = t.completed) ∧
    (∀ b, u.completed = some (some b) → t2.completed = b) ∧
    (u.priority = none → t2.priority = t.priority) ∧
    (∀ v, u.priority = some v → t2.priority = v) ∧
    (u.due_date = none → t2.due_date = t.due_date) ∧
    (∀ v, u.due_date = some v → t2.due_date = v) :=
  applyUpdate_fields (update_ok hget hupd).1

/-- Witness for C1: updating the stored row `w_t0` with \x7b"completed": true\x7d
changes only `completed`. -/
theorem C1_witness :
    w_t1.title = w_t0.title ∧ w_t1.priority = w_t0.priority ∧ w_t1.completed = true := by
  have h := C1_partial_update_frame [w_t0] [w_t1] 1 w_u w_t0 w_t1 (by decide) (by decide)
  exact ⟨h.1 rfl, h.2.2.2.2.2.2.1 rfl, h.2.2.2.2.2.1 true rfl⟩

/-- C2: POST /todos with a payload containing only a title returns 201 with
the full created entity: the supplied title, `completed = false`, all optional
fields null, and the store-assigned id `nextId s`. -/
theorem C2_create_with_title_only (s : Store) (ti : String) :
    postTodos s ⟨some ti, none, none, none⟩ =
      (s ++ [⟨nextId s, ti, none, false, none, none⟩],
        Response.ok 201 ⟨nextId s, ti, none, false, none, none⟩) := rfl

/-- C3: for every entity successfully created via POST /todos, GET with the id
the create call returned yields exactly the entity the create call returned. -/
theorem C3_create_then_get_roundtrip (s s2 : Store) (p : RawCreatePayload)
    (t : TodoItem) (h : postTodos s p = (s2, Response.ok 201 t)) :
    get_todo s2 t.id = Response.ok 200 t := by
  obtain ⟨c, hv, hp, ht, hs⟩ := postTodos_ok h
  have hid : t.id = nextId s := by rw [ht]
  have hfresh : ∀ x ∈ s, x.id ≠ t.id := by
    intro x hx hcontra
    have hle := le_maxId_of_mem hx
    rw [hcontra, hid] at hle
    unfold nextId at hle
    omega
  rw [hs]
  simp [get_todo, dbGet_append_new s t hfresh]

/-- Witness for C3: creating \x7b"title": "c"\x7d on an empty store and
GET-ting the returned id returns the created entity. -/
theorem C3_witness : get_todo [w_t3] w_t3.id = Response.ok 200 w_t3 :=
  C3_create_then_get_roundtrip [] [w_t3] ⟨some "c", none, none, none⟩ w_t3 (by decide)

/-- C4: DELETE /todos/\x7bid\x7d on a present id returns 204 with no content,
removes every row with that id, and a subsequent GET returns 404. -/
theorem C4_delete_then_get (s : Store) (i : Nat) (t : TodoItem)
    (h : dbGet s i = some t) :
    (delete_todo s i).2 = Response.ok 204 () ∧
    get_todo (delete_todo s i).1 i = Response.err 404 "To-Do item not found" ∧
    ∀ x ∈ (delete_todo s i).1, x.id ≠ i := by
  have hd : delete_todo s i = (s.filter (fun x => x.id != i), Response.ok 204 ()) := by
    simp [delete_todo, h]
  have hmem : ∀ x ∈ s.filter (fun x => x.id != i), x.id ≠ i := by
    intro x hx
    have hb := (List.mem_filter.mp hx).2
    simpa using hb
  have hg : dbGet (s.filter (fun x => x.id != i)) i = none := by
    rw [dbGet, List.find?_eq_none]
    intro x hx
    simpa using hmem x hx
  rw [hd]
  exact ⟨rfl, by simp [get_todo, hg], hmem⟩

/-- Witness for C4: deleting id 1 from [w_t0] yields 204 and a 404 on GET. -/
theorem C4_witness :
    (delete_todo [w_t0] 1).2 = Response.ok 204 () ∧
    get_todo (delete_todo [w_t0] 1).1 1 = Response.err 404 "To-Do item not found" ∧
    ∀ x ∈ (delete_todo [w_t0] 1).1, x.id ≠ 1 :=
  C4_delete_then_get [w_t0] 1 w_t0 (by decide)

/-- C5: for an id absent from the store, GET, PUT and DELETE each return 404
with the handlers' not-found detail, and PUT and DELETE leave the store
unchanged. -/
theorem C5_absent_id_404 (s : Store) (i : Nat) (u : TodoItemUpdate)
    (h : dbGet s i = none) :
    get_todo s i = Response.err 404 "To-Do item not found" ∧
    update_todo s i u = (s, Response.err 404 "To-Do item not found") ∧
    delete_todo s i = (s, Response.err 404 "To-Do item not found") :=
  ⟨by simp [get_todo, h], by simp [update_todo, h], by simp [delete_todo, h]⟩

/-- Witness for C5: id 5 on the empty store. -/
theorem C5_witness :
    get_todo [] 5 = Response.err 404 "To-Do item not found" ∧
    update_todo [] 5 emptyUpdate = ([], Response.err 404 "To-Do item not found") ∧
    delete_todo [] 5 = ([], Response.err 404 "To-Do item not found") :=
  C5_absent_id_404 [] 5 emptyUpdate rfl

/-- C6: with no configured credential (`gemini_model = none`), POST /translate
returns 503 for every payload, and the count of calls made to the external
service is 0: the failure is signalled before any call is attempted. -/
theorem C6_translate_unconfigured (r : TranslationRequest) :
    translate_text none r =
      (Response.err 503
        "Translation service not available. API key might be missing or invalid.", 0) := rfl

/-- C7 counterexample: a payload whose title is explicitly the empty string
passes schema validation and creates an entity whose title is empty — the
claim that every entity has non-empty title at creation is false. -/
theorem C7_counterexample :
    postTodos [] ⟨some "", none, none, none⟩ =
      ([⟨1, "", none, false, none, none⟩],
        Response.ok 201 ⟨1, "", none, false, none, none⟩) := rfl

/-- C7 (amended): a create request is rejected at the schema-validation
boundary, never reaching the handler and leaving the store unchanged,
whenever the payload has no title; the title is not otherwise constrained
there (it may be the empty string). -/
theorem C7_missing_title_rejected (s : Store) (p : RawCreatePayload)
    (h : p.title = none) :
    validateCreate p = none ∧
    postTodos s p = (s, Response.err 422 "validation error") := by
  have hv : validateCreate p = none := by
    unfold validateCreate
    rw [h]
  exact ⟨hv, by simp [postTodos, hv]⟩

/-- Witness for C7: the all-absent payload is rejected with 422. -/
theorem C7_witness :
    validateCreate ⟨none, none, none, none⟩ = none ∧
    postTodos [] ⟨none, none, none, none⟩ =
      ([], Response.err 422 "validation error") :=
  C7_missing_title_rejected [] ⟨none, none, none, none⟩ rfl

/-- C8 counterexample: a PUT whose payload carries a 51-character `priority`
persists it unchanged — the update path performs no validation and the store
does not enforce the declared column length, so the stored-priority bound of
the claim is false. -/
theorem C8_counterexample :
    longPriority.length = 51 ∧
    (update_todo [⟨1, "a", none, false, none, none⟩] 1
        ⟨none, none, none, some (some longPriority), none⟩).1 =
      [⟨1, "a", none, false, some longPriority, none⟩] ∧
    ¬ PriorityBounded
        [⟨1, "a", none, false, some longPriority, none⟩] := by
  refine ⟨rfl, rfl, ?_⟩
  intro h
  have := h ⟨1, "a", none, false, some longPriority, none⟩ (by simp)
  simp [priorityOk, longPriority] at this
  exact absurd this (by decide)

/-- C8 (amended): the 50-character bound on `priority` is enforced only on the
creation path (`TodoItem.model_validate`): POST /todos never persists a
priority longer than 50 characters, so the bound is preserved by creation;
the update path does not enforce it. -/
theorem C8_priority_bound_at_create (s : Store) (p : RawCreatePayload)
    (h : PriorityBounded s) : PriorityBounded (postTodos s p).1 := by
  unfold PriorityBounded at h ⊢
  cases hv : validateCreate p with
  | none => simpa [postTodos, hv] using h
  | some c =>
    cases hp : priorityOk c.priority with
    | false => simpa [postTodos, create_todo, hv, hp] using h
    | true =>
      simp only [postTodos, create_todo, hv, hp, if_true]
      intro t ht
      rcases List.mem_append.mp ht with h1 | h2
      · exact h t h1
      · have ht2 : t = ⟨nextId s, c.title, c.description, false, c.priority, c.due_date⟩ := by
          simpa using h2
        rw [ht2]
        simpa using hp

/-- Witness for C8: creating \x7b"title": "a", "priority": "High"\x7d on the
empty store keeps every stored priority within the bound. -/
theorem C8_witness :
    PriorityBounded [] ∧
    PriorityBounded (postTodos [] ⟨some "a", none, some "High", none⟩).1 :=
  ⟨by decide, C8_priority_bound_at_create [] ⟨some "a", none, some "High", none⟩ (by decide)⟩

/-- C9 counterexample: create on the empty store assigns id 1; deleting that
row and creating again assigns id 1 a second time — SQLite's rowid assignment
(one more than the largest id in use) reuses the id of a deleted row, so the
claim that an id is never reassigned after deletion is false. -/
theorem C9_counterexample :
    (postTodos [] ⟨some "a", none, none, none⟩).2 =
      Response.ok 201 ⟨1, "a", none, false, none, none⟩ ∧
    (delete_todo (postTodos [] ⟨some "a", none, none, none⟩).1 1).1 = [] ∧
    (postTodos
        (delete_todo (postTodos [] ⟨some "a", none, none, none⟩).1 1).1
        ⟨some "b", none, none, none⟩).2 =
      Response.ok 201 ⟨1, "b", none, false, none, none⟩ := ⟨rfl, rfl, rfl⟩

/-- C9 (amended): within a running store instance every id is system-assigned
exactly once at creation — fresh, distinct from every id currently in the
store, keeping the ids pairwise distinct — and is stable for the entity's
lifetime (updates never change any row's id; deletion preserves distinctness);
an id may however be assigned again after the entity holding it is deleted. -/
theorem C9_id_fresh_and_stable (s s2 : Store) (p : RawCreatePayload)
    (t : TodoItem) (i : Nat) (u : TodoItemUpdate)
    (hc : postTodos s p = (s2, Response.ok 201 t)) :
    (∀ x ∈ s, x.id ≠ t.id) ∧
    (IdsOk s → IdsOk s2) ∧
    ((update_todo s i u).1.map (fun x => x.id) = s.map (fun x => x.id)) ∧
    (IdsOk s → IdsOk (delete_todo s i).1) := by
  obtain ⟨c, hv, hp, ht, hs⟩ := postTodos_ok hc
  have hid : t.id = nextId s := by rw [ht]
  have hfresh : ∀ x ∈ s, x.id ≠ t.id := by
    intro x hx hcontra
    have hle := le_maxId_of_mem hx
    rw [hcontra, hid] at hle
    unfold nextId at hle
    omega
  refine ⟨hfresh, ?_, ?_, ?_⟩
  · intro hids
    rw [hs]
    unfold IdsOk at hids ⊢
    rw [List.map_append, List.nodup_append]
    refine ⟨hids, by simp, ?_⟩
    intro a ha hb
    simp only [List.map_cons, List.map_nil, List.mem_singleton] at hb
    obtain ⟨x, hx, hxid⟩ := List.mem_map.mp ha
    rw [hb] at hxid
    exact hfresh x hx hxid
  · cases hg : dbGet s i with
    | none => simp [update_todo, hg]
    | some t0 =>
      cases ha : applyUpdate t0 u with
      | none => simp [update_todo, hg, ha]
      | some t2 =>
        simp only [update_todo, hg, ha]
        rw [List.map_map]
        apply List.map_congr_left
        intro x hx
        by_cases hxi : x.id = i
        · have ht0i : t0.id = i := by simpa using List.find?_some hg
          have ht2i : t2.id = t0.id := applyUpdate_id ha
          simp [Function.comp, hxi, ht2i, ht0i]
        · simp [Function.comp, hxi]
  · intro hids
    unfold IdsOk at hids ⊢
    cases hg : dbGet s i with
    | none => simpa [delete_todo, hg] using hids
    | some t0 =>
      simp only [delete_todo, hg]
      exact List.Nodup.sublist (List.Sublist.map _ (List.filter_sublist s)) hids

/-- Witness for C9: creating \x7b"title": "b"\x7d on [w_t0] assigns the fresh
id 2, preserves distinctness, and updates and deletes keep ids stable. -/
theorem C9_witness :
    (∀ x ∈ [w_t0], x.id ≠ w_t9.id) ∧
    (IdsOk [w_t0] → IdsOk [w_t0, w_t9]) ∧
    ((update_todo [w_t0] 1 emptyUpdate).1.map (fun x => x.id) =
      [w_t0].map (fun x => x.id)) ∧
    (IdsOk [w_t0] → IdsOk (delete_todo [w_t0] 1).1) :=
  C9_id_fresh_and_stable [w_t0] [w_t0, w_t9] ⟨some "b", none, none, none⟩ w_t9 1
    emptyUpdate (by decide)

/-- C10: a PUT with an empty payload on a present id succeeds with 200,
returns the stored entity with every field unchanged, and leaves the store
unchanged. -/
theorem C10_empty_put_is_noop (s : Store) (i : Nat) (t : TodoItem)
    (hids : IdsOk s) (h : dbGet s i = some t) :
    update_todo s i emptyUpdate = (s, Response.ok 200 t) := by
  have hmem : t ∈ s := List.mem_of_find?_eq_some h
  have htid : t.id = i := by simpa using List.find?_some h
  have hmap : s.map (fun x => if x.id == i then t else x) = s := by
    have hcg : ∀ x ∈ s, (if x.id == i then t else x) = x := by
      intro x hx
      by_cases hxi : x.id = i
      · have hxt : x = t :=
          List.inj_on_of_nodup_map hids hx hmem (by rw [hxi, htid])
        simp [hxi, hxt]
      · simp [hxi]
    calc s.map (fun x => if x.id == i then t else x)
        = s.map (fun x => x) := List.map_congr_left hcg
      _ = s := by simp
  simp only [update_todo, h, applyUpdate_empty, hmap]

/-- Witness for C10: the empty PUT on [w_t0] at id 1 returns w_t0 and leaves
the store as it was. -/
theorem C10_witness :
    update_todo [w_t0] 1 emptyUpdate = ([w_t0], Response.ok 200 w_t0) :=
  C10_empty_put_is_noop [w_t0] 1 w_t0 (by decide) (by decide)

end TodoApp
